import Mathlib

/-!
Verification of the meduhub lead-registration backend (`src/server.js`).

The server exposes four routes over a `registrations` document collection:
`POST /api/register` (validate, 24-hour duplicate check, persist),
`GET /api/registrations` (filter, sort by `createdAt` descending, paginate),
`PATCH /api/registrations/:id` (enum-checked partial update of
`status`/`notes`), and a health probe.  We embed the request-handling logic
shallowly: the Firestore collection becomes a list of records plus a fresh-id
counter, timestamps become integer milliseconds, and JSON bodies whose fields
may be absent become records of `Option String`.
-/

namespace Meduhub

/-- JavaScript truthiness of an optional string field: `!x` is `true`
exactly when the field is `undefined` (absent) or the empty string. -/
def falsy : Option String → Bool
  | none => true
  | some s => s == ""

/-- The value of an optional field once it is known to be present
(destructuring in the handler). -/
def fieldVal (x : Option String) : String := x.getD ""

/-- Embedding of `String.prototype.trim`: strip whitespace from both ends. -/
def jsTrim (s : String) : String :=
  String.mk (((s.toList.dropWhile Char.isWhitespace).reverse.dropWhile
    Char.isWhitespace).reverse)

/-- Embedding of `String.prototype.toLowerCase`: lower-case every character. -/
def jsToLowerCase (s : String) : String := String.mk (s.toList.map Char.toLower)

/-- A character admitted by the `[^\s@]` classes of the email regex:
neither whitespace nor `@`. -/
def isEmailChar (c : Char) : Bool := !c.isWhitespace && c != '@'

/-- Embedding of the JS test `/^[^\s@]+@[^\s@]+\.[^\s@]+$/.test s`.
The string matches exactly when it decomposes as `A ++ "@" ++ B ++ "." ++ C`
with `A`, `B`, `C` nonempty and free of whitespace and `@` (so the string
holds exactly one `@`, and the part after it holds a dot that is neither
its first nor its last character).  We decide this by searching for the
position of the `@` and of the dot. -/
def emailRegexTest (s : String) : Bool :=
  let cs := s.toList
  (List.range cs.length).any fun ai =>
    cs.getD ai ' ' == '@' && decide (0 < ai) && (cs.take ai).all isEmailChar &&
      (let dom := cs.drop (ai + 1)
       dom.all isEmailChar &&
         (List.range dom.length).any fun di =>
           dom.getD di ' ' == '.' && decide (0 < di) && decide (di + 1 < dom.length))

/-- Embedding of the JS test `/^[6-9]\d{9}$/.test s`: ten characters, the
first in `6`–`9`, the remaining nine decimal digits. -/
def phoneRegexTest (s : String) : Bool :=
  match s.toList with
  | [] => false
  | c :: rest =>
      decide ('6' ≤ c) && decide (c ≤ '9') && decide (rest.length = 9) &&
        rest.all Char.isDigit

/-- A candidate registration as read from the JSON request body: every
field may be absent. -/
structure Candidate where
  name : Option String
  phone : Option String
  email : Option String
  state : Option String
  city : Option String
  inquiryType : Option String
deriving DecidableEq

/-- A persisted registration record (a document of the `registrations`
collection together with its generated id). -/
structure Registration where
  id : Nat
  name : String
  phone : String
  email : String
  state : String
  city : String
  inquiryType : String
  createdAt : Int
  status : String
  notes : String
deriving DecidableEq

/-- The document store: the `registrations` collection plus a counter
supplying fresh generated ids. -/
structure Store where
  regs : List Registration
  nextId : Nat
deriving DecidableEq

def emptyStore : Store := { regs := [], nextId := 0 }

/-- Failure of the first validator check: `!data.name || data.name.trim().length < 2`. -/
def nameInvalid (data : Candidate) : Bool :=
  falsy data.name || decide ((jsTrim (fieldVal data.name)).length < 2)

/-- Failure of the second validator check: `!data.phone || !/^[6-9]\d{9}$/.test(data.phone)`. -/
def phoneInvalid (data : Candidate) : Bool :=
  falsy data.phone || !phoneRegexTest (fieldVal data.phone)

/-- Failure of the third validator check: `!data.email || !/^[^\s@]+@[^\s@]+\.[^\s@]+$/.test(data.email)`. -/
def emailInvalid (data : Candidate) : Bool :=
  falsy data.email || !emailRegexTest (fieldVal data.email)

/-- Failure of the fourth validator check: `!data.state`. -/
def stateInvalid (data : Candidate) : Bool := falsy data.state

/-- Failure of the fifth validator check: `!data.city`. -/
def cityInvalid (data : Candidate) : Bool := falsy data.city

/-- `validateRegistration` from `src/server.js`: runs the five checks in
order, each pushing at most one message onto `errors`. -/
def validateRegistration (data : Candidate) : List String :=
  let errors : List String := []
  let errors := if nameInvalid data then
    errors ++ ["Name must be at least 2 characters"] else errors
  let errors := if phoneInvalid data then
    errors ++ ["Please enter a valid 10-digit Indian mobile number"] else errors
  let errors := if emailInvalid data then
    errors ++ ["Please enter a valid email address"] else errors
  let errors := if stateInvalid data then
    errors ++ ["State is required"] else errors
  let errors := if cityInvalid data then
    errors ++ ["City is required"] else errors
  errors

/-- The handler's pre-check `!name || !phone || !email || !state || !city`. -/
def presenceMissing (c : Candidate) : Bool :=
  falsy c.name || falsy c.phone || falsy c.email || falsy c.state || falsy c.city

/-- Length of the duplicate-detection window,
`24 * 60 * 60 * 1000` milliseconds. -/
def dedupWindowMs : Int := 24 * 60 * 60 * 1000

/-- The by-phone existence query: some record with
`phone == phone.trim()` and `createdAt >= twentyFourHoursAgo`. -/
def phoneDupFound (st : Store) (now : Int) (c : Candidate) : Bool :=
  st.regs.any fun r =>
    r.phone == jsTrim (fieldVal c.phone) && decide (now - dedupWindowMs ≤ r.createdAt)

/-- The by-email existence query: some record with
`email == email.trim().toLowerCase()` and `createdAt >= twentyFourHoursAgo`. -/
def emailDupFound (st : Store) (now : Int) (c : Candidate) : Bool :=
  st.regs.any fun r =>
    r.email == jsToLowerCase (jsTrim (fieldVal c.email)) &&
      decide (now - dedupWindowMs ≤ r.createdAt)

/-- The `registrationData` object built by the register handler: trimmed
name and phone, trimmed lower-cased email, `state` and `city` as given,
`inquiryType || 'register'`, `createdAt = now`, status `new`, empty notes;
the store's `add` assigns the next fresh id. -/
def newRegistration (st : Store) (now : Int) (c : Candidate) : Registration :=
  { id := st.nextId
    name := jsTrim (fieldVal c.name)
    phone := jsTrim (fieldVal c.phone)
    email := jsToLowerCase (jsTrim (fieldVal c.email))
    state := fieldVal c.state
    city := fieldVal c.city
    inquiryType := if falsy c.inquiryType then "register" else fieldVal c.inquiryType
    createdAt := now
    status := "new"
    notes := "" }

/-- Outcome of `POST /api/register`: 400 missing fields, 400 joined
validation messages, 409 duplicate, or 201 with the id and the echoed
name and email. -/
inductive SubmitResult where
  | missingFields
  | validationFailed (message : String)
  | duplicate
  | created (id : Nat) (name : String) (email : String)
deriving DecidableEq

/-- The `POST /api/register` handler: presence pre-check, validator,
duplicate check (by-phone OR by-email within the window), then persist. -/
def submit (st : Store) (now : Int) (c : Candidate) : SubmitResult × Store :=
  if presenceMissing c then
    (SubmitResult.missingFields, st)
  else if (validateRegistration c).length > 0 then
    (SubmitResult.validationFailed (String.intercalate ", " (validateRegistration c)), st)
  else if phoneDupFound st now c || emailDupFound st now c then
    (SubmitResult.duplicate, st)
  else
    (SubmitResult.created st.nextId (newRegistration st now c).name
       (newRegistration st now c).email,
     { regs := st.regs ++ [newRegistration st now c], nextId := st.nextId + 1 })

/-- The status enum `['new', 'contacted', 'enrolled', 'closed']`. -/
def validStatuses : List String := ["new", "contacted", "enrolled", "closed"]

/-- Outcome of `PATCH /api/registrations/:id`: 400 invalid status,
404 not found, 500 when the store client throws (caught by the handler's
`try/catch`), or 200 with the updated record. -/
inductive UpdateResult where
  | invalidStatus
  | notFound
  | serverError
  | ok (r : Registration)
deriving DecidableEq

/-- The `updateData` merge applied to the stored document:
`if (status) updateData.status = status; if (notes !== undefined)
updateData.notes = notes`. -/
def applyUpdate (status notes : Option String) (r : Registration) : Registration :=
  let r1 := if falsy status then r else { r with status := fieldVal status }
  match notes with
  | none => r1
  | some n => { r1 with notes := n }

/-- The `PATCH /api/registrations/:id` handler: enum check on a truthy
`status`, lookup by id, partial update, return of the re-read record.
When `status` is falsy and `notes` is absent the handler's `updateData`
object is empty; the Firestore client rejects `docRef.update({})`
client-side before writing anything ("At least one field must be
updated."), and the handler's catch answers HTTP 500 with the store
untouched — modelled by `serverError`. -/
def updateStatus (st : Store) (id : Nat) (status notes : Option String) :
    UpdateResult × Store :=
  if !falsy status && !validStatuses.contains (fieldVal status) then
    (UpdateResult.invalidStatus, st)
  else
    match st.regs.find? (fun r => r.id == id) with
    | none => (UpdateResult.notFound, st)
    | some r =>
        if falsy status && notes.isNone then
          (UpdateResult.serverError, st)
        else
          let updated := applyUpdate status notes r
          (UpdateResult.ok updated,
           { st with regs := st.regs.map fun x => if x.id == id then updated else x })

/-- The Firestore ordering `orderBy('createdAt', 'desc')`. -/
def createdDesc (a b : Registration) : Prop := b.createdAt ≤ a.createdAt

instance : DecidableRel createdDesc := fun a b => Int.decLe b.createdAt a.createdAt

instance : IsTotal Registration createdDesc :=
  ⟨fun a b => le_total b.createdAt a.createdAt⟩

instance : IsTrans Registration createdDesc :=
  ⟨fun _ _ _ hab hbc => le_trans hbc hab⟩

/-- The optional `where` clauses of the listing query: a truthy `status`
or `inquiryType` query parameter filters on equality. -/
def matchesFilters (status inquiryType : Option String) (r : Registration) : Bool :=
  (falsy status || r.status == fieldVal status) &&
    (falsy inquiryType || r.inquiryType == fieldVal inquiryType)

structure Pagination where
  page : Nat
  limit : Nat
  total : Nat
  pages : Nat
deriving DecidableEq

structure ListResult where
  data : List Registration
  pagination : Pagination
deriving DecidableEq

/-- The `allRegistrations` array the listing handler collects from the
query snapshot: the collection ordered by `createdAt` descending with the
optional filters applied. -/
def filteredSorted (st : Store) (status inquiryType : Option String) :
    List Registration :=
  (List.insertionSort createdDesc st.regs).filter (matchesFilters status inquiryType)

/-- The `GET /api/registrations` handler: `page`/`limit` default to 1/20,
the collection is ordered by `createdAt` descending with the optional
filters applied, and the result is `slice(startIndex, startIndex + limit)`
with `pages = Math.ceil(total / limit)`.  `page ≥ 1` is assumed (a JS
`page = 0` would index from the end of the array via a negative slice
argument, which a `Nat` model does not reach). -/
def listRegistrations (st : Store) (page limit : Option Nat)
    (status inquiryType : Option String) : ListResult :=
  let p := page.getD 1
  let l := limit.getD 20
  let allRegistrations := filteredSorted st status inquiryType
  let total := allRegistrations.length
  let startIndex := (p - 1) * l
  { data := (allRegistrations.drop startIndex).take l
    pagination := { page := p, limit := l, total := total, pages := (total + l - 1) / l } }

/-- One client operation against the API (the listing is read-only and
does not change the store). -/
inductive Op where
  | register (now : Int) (c : Candidate)
  | patch (id : Nat) (status notes : Option String)

/-- The store after one operation. -/
def applyOp (st : Store) : Op → Store
  | Op.register now c => (submit st now c).2
  | Op.patch id status notes => (updateStatus st id status notes).2

/-- The store reached from the empty collection by a sequence of
operations. -/
def runOps (ops : List Op) : Store := ops.foldl applyOp emptyStore

/-! ### Concrete sample data used by witnesses and counterexamples -/

/-- A well-formed candidate body. -/
def candA : Candidate :=
  { name := some "John Doe", phone := some "9876543210",
    email := some "John@Example.COM", state := some "UP", city := some "Agra",
    inquiryType := none }

/-- The record a successful submission of `candA` at time 500 persists. -/
def regA : Registration :=
  { id := 0, name := "John Doe", phone := "9876543210",
    email := "john@example.com", state := "UP", city := "Agra",
    inquiryType := "register", createdAt := 500, status := "new", notes := "" }

def storeA : Store := { regs := [regA], nextId := 1 }

/-- A candidate whose `phone` field is absent. -/
def candMissingPhone : Candidate :=
  { name := some "John", phone := none, email := some "a@b.co",
    state := some "UP", city := some "Agra", inquiryType := none }

/-- A candidate whose `state` has surrounding whitespace (the validator
only requires `state` to be truthy, so it passes). -/
def candUntrimmedState : Candidate :=
  { name := some "John", phone := some "9876543210", email := some "a@b.co",
    state := some " UP ", city := some "Agra", inquiryType := none }

def regC : Registration :=
  { id := 7, name := "X", phone := "9876500002", email := "x@x.xx",
    state := "S", city := "C", inquiryType := "register", createdAt := 100,
    status := "new", notes := "old" }

def storeC : Store := { regs := [regC], nextId := 8 }

/-- Three records with distinct creation times for the pagination scenario. -/
def regB1 : Registration :=
  { id := 1, name := "A", phone := "9876500001", email := "a@a.aa",
    state := "S", city := "C", inquiryType := "register", createdAt := 1000,
    status := "new", notes := "" }

def regB2 : Registration := { regB1 with id := 2, createdAt := 2000 }

def regB3 : Registration := { regB1 with id := 3, createdAt := 3000 }

def listStoreB : Store := { regs := [regB1, regB3, regB2], nextId := 4 }

/-! ### Helper lemmas -/

/-- The OR of the two existence queries, phrased as membership. -/
lemma dup_queries_iff (st : Store) (now : Int) (c : Candidate) :
    (phoneDupFound st now c || emailDupFound st now c) = true ↔
      ((∃ r ∈ st.regs, r.phone = jsTrim (fieldVal c.phone) ∧
          now - dedupWindowMs ≤ r.createdAt) ∨
       (∃ r ∈ st.regs, r.email = jsToLowerCase (jsTrim (fieldVal c.email)) ∧
          now - dedupWindowMs ≤ r.createdAt)) := by
  simp [phoneDupFound, emailDupFound, List.any_eq_true]

/-- Fields other than `status` and `notes` survive the update merge. -/
lemma applyUpdate_frame (status notes : Option String) (r : Registration) :
    (applyUpdate status notes r).id = r.id ∧
    (applyUpdate status notes r).name = r.name ∧
    (applyUpdate status notes r).phone = r.phone ∧
    (applyUpdate status notes r).email = r.email ∧
    (applyUpdate status notes r).state = r.state ∧
    (applyUpdate status notes r).city = r.city ∧
    (applyUpdate status notes r).inquiryType = r.inquiryType ∧
    (applyUpdate status notes r).createdAt = r.createdAt := by
  unfold applyUpdate
  cases notes <;> cases hf : falsy status <;> simp [hf]

lemma applyUpdate_status_eq (status notes : Option String) (r : Registration) :
    (applyUpdate status notes r).status =
      if falsy status then r.status else fieldVal status := by
  unfold applyUpdate
  cases notes <;> cases hf : falsy status <;> simp [hf]

lemma applyUpdate_notes_eq (status notes : Option String) (r : Registration) :
    (applyUpdate status notes r).notes =
      match notes with
      | none => r.notes
      | some n => n := by
  unfold applyUpdate
  cases notes <;> cases hf : falsy status <;> simp [hf]

/-- Behaviour of the patch handler when the enum guard passes, the
document is found, and the update map is nonempty. -/
lemma updateStatus_ok_eq (st : Store) (id : Nat) (status notes : Option String)
    (old : Registration)
    (hguard : (!falsy status && !validStatuses.contains (fieldVal status)) = false)
    (hempty : (falsy status && notes.isNone) = false)
    (hfind : st.regs.find? (fun x => x.id == id) = some old) :
    updateStatus st id status notes =
      (UpdateResult.ok (applyUpdate status notes old),
       { st with regs := st.regs.map fun x =>
           if x.id == id then applyUpdate status notes old else x }) := by
  rw [updateStatus, if_neg (by rw [hguard]; simp), hfind]
  simp [hempty]

/-- `Math.ceil(t / l)`, written `(t + l - 1) / l` over `Nat`, is the least
number of pages covering `t` records. -/
lemma ceilDiv_bounds (t l : Nat) (hl : 1 ≤ l) :
    t ≤ (t + l - 1) / l * l ∧ (t + l - 1) / l * l < t + l := by
  have h1 : (t + l - 1) / l * l ≤ t + l - 1 := Nat.div_mul_le_self _ _
  have h2 : t + l - 1 < l * ((t + l - 1) / l + 1) := Nat.lt_mul_div_succ _ hl
  rw [Nat.mul_add, Nat.mul_one, Nat.mul_comm] at h2
  generalize hA : (t + l - 1) / l * l = A at h1 h2 ⊢
  omega

/-- Registering preserves the status-enum invariant: every branch either
leaves the collection alone or appends a record whose status is `new`. -/
lemma submit_preserves_statusOk (st : Store) (now : Int) (c : Candidate)
    (h : ∀ r ∈ st.regs, r.status ∈ validStatuses) :
    ∀ r ∈ (submit st now c).2.regs, r.status ∈ validStatuses := by
  by_cases h1 : presenceMissing c = true
  · simpa [submit, h1] using h
  · by_cases h2 : (validateRegistration c).length > 0
    · simpa [submit, h1, h2] using h
    · by_cases h3 : (phoneDupFound st now c || emailDupFound st now c) = true
      · simpa [submit, h1, h2, h3] using h
      · intro r hr
        have hregs : (submit st now c).2.regs =
            st.regs ++ [newRegistration st now c] := by
          simp [submit, h1, h2, h3]
        rw [hregs] at hr
        rcases List.mem_append.mp hr with hr | hr
        · exact h r hr
        · rw [List.mem_singleton] at hr
          subst hr
          show (newRegistration st now c).status ∈ validStatuses
          simp [newRegistration, validStatuses]

/-- Patching preserves the status-enum invariant: a truthy status is only
written after the guard has checked it against the enum. -/
lemma updateStatus_preserves_statusOk (st : Store) (id : Nat)
    (status notes : Option String)
    (h : ∀ r ∈ st.regs, r.status ∈ validStatuses) :
    ∀ r ∈ (updateStatus st id status notes).2.regs, r.status ∈ validStatuses := by
  by_cases hguard : (!falsy status && !validStatuses.contains (fieldVal status)) = true
  · have heq : updateStatus st id status notes = (UpdateResult.invalidStatus, st) := by
      rw [updateStatus, if_pos hguard]
    simpa [heq] using h
  · rw [Bool.not_eq_true] at hguard
    rcases hfind : st.regs.find? (fun x => x.id == id) with _ | old
    · have heq : updateStatus st id status notes = (UpdateResult.notFound, st) := by
        rw [updateStatus, if_neg (by rw [hguard]; simp), hfind]
      simpa [heq] using h
    · by_cases hempty : (falsy status && notes.isNone) = true
      · have heq : updateStatus st id status notes = (UpdateResult.serverError, st) := by
          rw [updateStatus, if_neg (by rw [hguard]; simp), hfind]
          simp [hempty]
        simpa [heq] using h
      · rw [Bool.not_eq_true] at hempty
        have heq := updateStatus_ok_eq st id status notes old hguard hempty hfind
        intro r hr
        rw [heq] at hr
        replace hr : r ∈ st.regs.map
            (fun x => if x.id == id then applyUpdate status notes old else x) := hr
        rcases List.mem_map.mp hr with ⟨x, hx, hfx⟩
        by_cases hid : (x.id == id) = true
        · rw [if_pos hid] at hfx
          subst hfx
          rw [applyUpdate_status_eq]
          by_cases hf : falsy status = true
          · rw [if_pos hf]
            exact h old (List.mem_of_find?_eq_some hfind)
          · rw [if_neg hf]
            have hf' : falsy status = false := by
              cases hfv : falsy status
              · rfl
              · exact absurd hfv hf
            rw [hf'] at hguard
            have hcont : validStatuses.contains (fieldVal status) = true := by
              simpa using hguard
            exact List.mem_of_elem_eq_true hcont
        · rw [if_neg hid] at hfx
          subst hfx
          exact h x hx

/-- The status-enum invariant is preserved along any operation sequence. -/
lemma foldl_preserves_statusOk (ops : List Op) :
    ∀ st : Store, (∀ x ∈ st.regs, x.status ∈ validStatuses) →
      ∀ x ∈ (ops.foldl applyOp st).regs, x.status ∈ validStatuses := by
  induction ops with
  | nil =>
    intro st h x hx
    exact h x hx
  | cons op rest ih =>
    intro st h x hx
    refine ih (applyOp st op) ?_ x hx
    cases op with
    | register now c => exact submit_preserves_statusOk st now c h
    | patch id status notes => exact updateStatus_preserves_statusOk st id status notes h

/-! ### Claims -/

/-- C1: for a candidate that passes the field-presence pre-check and the
validator, the submission is rejected as a duplicate (HTTP 409) exactly
when some stored record matches the trimmed phone, or some stored record
matches the trimmed lower-cased email, with `createdAt ≥ now − 24h`; the
two existence checks are independent and OR-ed. -/
theorem register_duplicate_iff (st : Store) (now : Int) (c : Candidate)
    (hpre : presenceMissing c = false) (hval : validateRegistration c = []) :
    (submit st now c).1 = SubmitResult.duplicate ↔
      ((∃ r ∈ st.regs, r.phone = jsTrim (fieldVal c.phone) ∧
          now - dedupWindowMs ≤ r.createdAt) ∨
       (∃ r ∈ st.regs, r.email = jsToLowerCase (jsTrim (fieldVal c.email)) ∧
          now - dedupWindowMs ≤ r.createdAt)) := by
  have hlen : ¬((validateRegistration c).length > 0) := by
    rw [hval]
    simp
  rw [← dup_queries_iff st now c, submit, if_neg (by rw [hpre]; simp), if_neg hlen]
  by_cases hd : (phoneDupFound st now c || emailDupFound st now c) = true
  · simp [hd]
  · simp [hd]

/-- C1 witness: a second submission sharing the phone of a record stored
500ms earlier is rejected as a duplicate. -/
theorem register_duplicate_iff_witness :
    (submit storeA 1000 candA).1 = SubmitResult.duplicate :=
  (register_duplicate_iff storeA 1000 candA (by decide) (by decide)).mpr
    (Or.inl ⟨regA, by decide, by decide⟩)

/-- C2: the validator is the ordered concatenation of five independently
evaluated checks, each contributing at most one message; it returns the
empty list exactly when all five checks pass; `"5123456789"` is an invalid
phone and `"9876543210"` a valid one, `"bad-email"` is an invalid email
and `"a@b.co"` a valid one. -/
theorem validator_spec :
    (∀ c, validateRegistration c =
      (if nameInvalid c then ["Name must be at least 2 characters"] else []) ++
      (if phoneInvalid c then ["Please enter a valid 10-digit Indian mobile number"] else []) ++
      (if emailInvalid c then ["Please enter a valid email address"] else []) ++
      (if stateInvalid c then ["State is required"] else []) ++
      (if cityInvalid c then ["City is required"] else [])) ∧
    (∀ c, validateRegistration c = [] ↔
      nameInvalid c = false ∧ phoneInvalid c = false ∧ emailInvalid c = false ∧
        stateInvalid c = false ∧ cityInvalid c = false) ∧
    phoneRegexTest "5123456789" = false ∧ phoneRegexTest "9876543210" = true ∧
    emailRegexTest "bad-email" = false ∧ emailRegexTest "a@b.co" = true := by
  refine ⟨fun c => ?_, fun c => ?_, by decide, by decide, by decide, by decide⟩
  · cases hn : nameInvalid c <;> cases hp : phoneInvalid c <;>
      cases he : emailInvalid c <;> cases hs : stateInvalid c <;>
      cases hc : cityInvalid c <;>
      simp [validateRegistration, hn, hp, he, hs, hc]
  · cases hn : nameInvalid c <;> cases hp : phoneInvalid c <;>
      cases he : emailInvalid c <;> cases hs : stateInvalid c <;>
      cases hc : cityInvalid c <;>
      simp [validateRegistration, hn, hp, he, hs, hc]

/-- C3 counterexample: a candidate with `state = " UP "` passes validation,
and the persisted record stores `" UP "` verbatim even though its trimmed
form differs — the handler does not trim `state` (nor `city`). -/
theorem submit_state_not_trimmed :
    (submit emptyStore 0 candUntrimmedState).2.regs.map Registration.state =
      [" UP "] ∧
    jsTrim " UP " = "UP" ∧ (" UP " : String) ≠ "UP" := by decide

/-- C3 (amended): for a candidate that passes the pre-check, the validator
and the duplicate check, submit persists a record with `createdAt = now`,
status `new`, empty notes, trimmed name and phone, trimmed lower-cased
email, `state` and `city` exactly as provided (not trimmed), and
`inquiryType` defaulting to `register`; it returns the generated id with
the echoed name and email. -/
theorem submit_created_spec (st : Store) (now : Int) (c : Candidate)
    (hpre : presenceMissing c = false) (hval : validateRegistration c = [])
    (hdup : (phoneDupFound st now c || emailDupFound st now c) = false) :
    submit st now c =
      (SubmitResult.created st.nextId (jsTrim (fieldVal c.name))
         (jsToLowerCase (jsTrim (fieldVal c.email))),
       { regs := st.regs ++
           [{ id := st.nextId, name := jsTrim (fieldVal c.name),
              phone := jsTrim (fieldVal c.phone),
              email := jsToLowerCase (jsTrim (fieldVal c.email)),
              state := fieldVal c.state, city := fieldVal c.city,
              inquiryType := if falsy c.inquiryType then "register"
                else fieldVal c.inquiryType,
              createdAt := now, status := "new", notes := "" }],
         nextId := st.nextId + 1 }) := by
  have hlen : ¬((validateRegistration c).length > 0) := by
    rw [hval]
    simp
  rw [submit, if_neg (by rw [hpre]; simp), if_neg hlen, if_neg (by rw [hdup]; simp)]
  rfl

/-- C3 witness: submitting `candA` to the empty store creates record 0
with the echoed trimmed name and normalized email. -/
theorem submit_created_spec_witness :
    (submit emptyStore 1000 candA).1 =
      SubmitResult.created 0 "John Doe" "john@example.com" := by
  rw [submit_created_spec emptyStore 1000 candA (by decide) (by decide) (by decide)]
  decide

/-- C8: if any of the five required fields is absent, submit answers with
the generic missing-fields error and the store is untouched. -/
theorem submit_missing_fields_no_write (st : Store) (now : Int) (c : Candidate)
    (h : c.name = none ∨ c.phone = none ∨ c.email = none ∨ c.state = none ∨
      c.city = none) :
    submit st now c = (SubmitResult.missingFields, st) := by
  have hp : presenceMissing c = true := by
    rcases h with h | h | h | h | h <;> simp [presenceMissing, h, falsy]
  rw [submit, if_pos hp]

/-- C8 witness: a candidate without a phone is rejected before any write. -/
theorem submit_missing_fields_no_write_witness :
    submit emptyStore 0 candMissingPhone = (SubmitResult.missingFields, emptyStore) :=
  submit_missing_fields_no_write emptyStore 0 candMissingPhone
    (Or.inr (Or.inl rfl))

/-- C10: whenever submit fails — missing fields, validation errors, or a
detected duplicate — the store component of the result is exactly the
input store: nothing is written. -/
theorem submit_failure_preserves_store (st : Store) (now : Int) (c : Candidate)
    (h : (submit st now c).1 = SubmitResult.missingFields ∨
         (∃ m, (submit st now c).1 = SubmitResult.validationFailed m) ∨
         (submit st now c).1 = SubmitResult.duplicate) :
    (submit st now c).2 = st := by
  by_cases h1 : presenceMissing c = true
  · rw [submit, if_pos h1]
  · by_cases h2 : (validateRegistration c).length > 0
    · rw [submit, if_neg h1, if_pos h2]
    · by_cases h3 : (phoneDupFound st now c || emailDupFound st now c) = true
      · rw [submit, if_neg h1, if_neg h2, if_pos h3]
      · exfalso
        have hc : (submit st now c).1 =
            SubmitResult.created st.nextId (newRegistration st now c).name
              (newRegistration st now c).email := by
          rw [submit, if_neg h1, if_neg h2, if_neg h3]
        rcases h with h | ⟨m, h⟩ | h <;> rw [hc] at h <;>
          exact SubmitResult.noConfusion h

/-- C10 witness: the duplicate rejection of `candA` against `storeA`
leaves `storeA` unchanged. -/
theorem submit_failure_preserves_store_witness :
    (submit storeA 1000 candA).2 = storeA :=
  submit_failure_preserves_store storeA 1000 candA
    (Or.inr (Or.inr (by decide)))

/-- C4 counterexample: the empty string is a provided status value outside
the enum, yet with notes also provided the call succeeds (HTTP 200) on an
existing record instead of failing with InvalidStatus — the guard
`status && ...` skips falsy statuses. -/
theorem update_empty_status_bypasses_enum :
    validStatuses.contains "" = false ∧
    (updateStatus storeC 7 (some "") (some "x")).1 ≠ UpdateResult.invalidStatus ∧
    (updateStatus storeC 7 (some "") (some "x")).1 =
      UpdateResult.ok { regC with notes := "x" } := by decide

/-- C4 (amended): if a provided status is non-empty (truthy) and outside
the enum, the call fails with InvalidStatus regardless of whether the
record exists — the enum check precedes the lookup; otherwise, if no
record with the id exists, the call fails with NotFound. -/
theorem update_enum_before_lookup (st : Store) (id : Nat)
    (status notes : Option String) :
    (falsy status = false → validStatuses.contains (fieldVal status) = false →
      (updateStatus st id status notes).1 = UpdateResult.invalidStatus) ∧
    ((falsy status = true ∨ validStatuses.contains (fieldVal status) = true) →
      st.regs.find? (fun r => r.id == id) = none →
      (updateStatus st id status notes).1 = UpdateResult.notFound) := by
  constructor
  · intro h1 h2
    rw [updateStatus, if_pos (by rw [h1, h2]; rfl)]
  · intro h1 h2
    have hguard : (!falsy status && !validStatuses.contains (fieldVal status)) =
        false := by
      rcases h1 with h | h <;> rw [h] <;> simp
    rw [updateStatus, if_neg (by rw [hguard]; simp), h2]

/-- C4 witness: a bogus status is rejected even though no record with the
id exists. -/
theorem update_enum_before_lookup_witness :
    (updateStatus emptyStore 3 (some "bogus") none).1 =
      UpdateResult.invalidStatus :=
  (update_enum_before_lookup emptyStore 3 (some "bogus") none).1
    (by decide) (by decide)

/-- C6: a successful patch only changes the provided fields among
status/notes: the looked-up record keeps its id, name, phone, email,
state, city, inquiryType and createdAt; an omitted (or falsy) status
leaves status unchanged, a truthy status is written; omitted notes are
kept while provided notes — the empty string included — are written; the
updated record is returned and replaces the stored one. -/
theorem update_partial_frame (st : Store) (id : Nat)
    (status notes : Option String) (r : Registration)
    (h : (updateStatus st id status notes).1 = UpdateResult.ok r) :
    ∃ old, st.regs.find? (fun x => x.id == id) = some old ∧
      r.id = old.id ∧ r.name = old.name ∧ r.phone = old.phone ∧
      r.email = old.email ∧ r.state = old.state ∧ r.city = old.city ∧
      r.inquiryType = old.inquiryType ∧ r.createdAt = old.createdAt ∧
      (falsy status = true → r.status = old.status) ∧
      (falsy status = false → r.status = fieldVal status) ∧
      (notes = none → r.notes = old.notes) ∧
      (∀ n, notes = some n → r.notes = n) ∧
      (updateStatus st id status notes).2.regs =
        st.regs.map fun x => if x.id == id then r else x := by
  by_cases hguard : (!falsy status && !validStatuses.contains (fieldVal status)) = true
  · rw [updateStatus, if_pos hguard] at h
    exact UpdateResult.noConfusion h
  · rw [Bool.not_eq_true] at hguard
    rcases hfind : st.regs.find? (fun x => x.id == id) with _ | old
    · rw [updateStatus, if_neg (by rw [hguard]; simp), hfind] at h
      exact UpdateResult.noConfusion h
    · by_cases hempty : (falsy status && notes.isNone) = true
      · rw [updateStatus, if_neg (by rw [hguard]; simp), hfind] at h
        simp [hempty] at h
      · rw [Bool.not_eq_true] at hempty
        have heq := updateStatus_ok_eq st id status notes old hguard hempty hfind
        rw [heq] at h
        replace h : applyUpdate status notes old = r := by
          simpa using h
        subst h
        obtain ⟨h1, h2, h3, h4, h5, h6, h7, h8⟩ := applyUpdate_frame status notes old
        refine ⟨old, hfind, h1, h2, h3, h4, h5, h6, h7, h8, ?_, ?_, ?_, ?_, ?_⟩
        · intro hf
          rw [applyUpdate_status_eq, if_pos hf]
        · intro hf
          rw [applyUpdate_status_eq, if_neg (by rw [hf]; simp)]
        · intro hn
          subst hn
          rw [applyUpdate_notes_eq]
        · intro n hn
          subst hn
          rw [applyUpdate_notes_eq]
        · rw [heq]

/-- C6 witness: patching record 7 with status `contacted` and no notes
yields the same record with only its status changed. -/
theorem update_partial_frame_witness :
    ∃ old, storeC.regs.find? (fun x => x.id == 7) = some old ∧
      ({ regC with status := "contacted" } : Registration).id = old.id ∧
      ({ regC with status := "contacted" } : Registration).name = old.name ∧
      ({ regC with status := "contacted" } : Registration).phone = old.phone ∧
      ({ regC with status := "contacted" } : Registration).email = old.email ∧
      ({ regC with status := "contacted" } : Registration).state = old.state ∧
      ({ regC with status := "contacted" } : Registration).city = old.city ∧
      ({ regC with status := "contacted" } : Registration).inquiryType = old.inquiryType ∧
      ({ regC with status := "contacted" } : Registration).createdAt = old.createdAt ∧
      (falsy (some "contacted") = true →
        ({ regC with status := "contacted" } : Registration).status = old.status) ∧
      (falsy (some "contacted") = false →
        ({ regC with status := "contacted" } : Registration).status =
          fieldVal (some "contacted")) ∧
      ((none : Option String) = none →
        ({ regC with status := "contacted" } : Registration).notes = old.notes) ∧
      (∀ n, (none : Option String) = some n →
        ({ regC with status := "contacted" } : Registration).notes = n) ∧
      (updateStatus storeC 7 (some "contacted") none).2.regs =
        storeC.regs.map fun x =>
          if x.id == 7 then { regC with status := "contacted" } else x :=
  update_partial_frame storeC 7 (some "contacted") none
    { regC with status := "contacted" } (by decide)

/-- C9 counterexample: with an empty-string status and no notes on an
existing record the real handler builds an empty `updateData` and
Firestore's `update({})` throws ("At least one field must be updated."),
so the call yields HTTP 500 — not the HTTP 200 success the claim
asserts for every such call. -/
theorem update_empty_status_empty_notes_fails :
    (updateStatus storeC 7 (some "") none).1 = UpdateResult.serverError ∧
    (updateStatus storeC 7 (some "") none).1 ≠ UpdateResult.ok regC := by decide

/-- C9 (amended): a provided empty-string status is treated as "not
provided": it is not one of the four enum values, yet the call never
fails with InvalidStatus; when the record exists and notes are provided
the call succeeds (HTTP 200) with the status field left unchanged, while
with notes also absent the empty update map is rejected by the store
client and the handler answers HTTP 500 (still not InvalidStatus). -/
theorem update_empty_status_treated_as_absent (st : Store) (id : Nat)
    (n : String) (old : Registration)
    (hfind : st.regs.find? (fun x => x.id == id) = some old) :
    validStatuses.contains "" = false ∧
    (updateStatus st id (some "") (some n)).1 =
      UpdateResult.ok (applyUpdate (some "") (some n) old) ∧
    (applyUpdate (some "") (some n) old).status = old.status ∧
    (updateStatus st id (some "") (some n)).2.regs =
      (st.regs.map fun x =>
        if x.id == id then applyUpdate (some "") (some n) old else x) ∧
    (updateStatus st id (some "") none).1 = UpdateResult.serverError ∧
    (updateStatus st id (some "") none).1 ≠ UpdateResult.invalidStatus := by
  have heq := updateStatus_ok_eq st id (some "") (some n) old (by decide)
    (by simp [falsy]) hfind
  have hnone : (updateStatus st id (some "") none).1 = UpdateResult.serverError := by
    rw [updateStatus, if_neg (by decide), hfind]
    simp [falsy]
  refine ⟨by decide, ?_, ?_, ?_, hnone, ?_⟩
  · rw [heq]
  · rw [applyUpdate_status_eq, if_pos (by decide)]
  · rw [heq]
  · rw [hnone]
    exact fun hc => UpdateResult.noConfusion hc

/-- C9 witness: patching record 7 with the empty status and a note
succeeds and keeps the status `new`. -/
theorem update_empty_status_treated_as_absent_witness :
    (updateStatus storeC 7 (some "") (some "note")).1 =
      UpdateResult.ok (applyUpdate (some "") (some "note") regC) :=
  (update_empty_status_treated_as_absent storeC 7 "note" regC
    (by decide)).2.1

/-- C5: for page ≥ 1 and pageSize ≥ 1 (with defaults 1/20 when
unspecified), the listing reports the requested page and size, counts all
filtered records, returns the slice of the filtered records — ordered by
`createdAt` descending — starting at index `(page−1)·pageSize` of length
at most `pageSize`, and `pages` is the ceiling of `total / pageSize`
(characterized by `total ≤ pages·pageSize < total + pageSize`); with three
records, `page=2, limit=1` returns exactly the second-most-recent record
and `pages = 3`. -/
theorem list_pagination_spec :
    (∀ (st : Store) (page limit : Option Nat) (status inquiryType : Option String),
      1 ≤ page.getD 1 → 1 ≤ limit.getD 20 →
      (listRegistrations st page limit status inquiryType).pagination.page =
        page.getD 1 ∧
      (listRegistrations st page limit status inquiryType).pagination.limit =
        limit.getD 20 ∧
      (listRegistrations st page limit status inquiryType).pagination.total =
        (filteredSorted st status inquiryType).length ∧
      (listRegistrations st page limit status inquiryType).data =
        ((filteredSorted st status inquiryType).drop
          ((page.getD 1 - 1) * limit.getD 20)).take (limit.getD 20) ∧
      List.Sorted createdDesc
        (listRegistrations st page limit status inquiryType).data ∧
      (filteredSorted st status inquiryType).Perm
        (st.regs.filter (matchesFilters status inquiryType)) ∧
      (listRegistrations st page limit status inquiryType).pagination.total ≤
        (listRegistrations st page limit status inquiryType).pagination.pages *
          limit.getD 20 ∧
      (listRegistrations st page limit status inquiryType).pagination.pages *
          limit.getD 20 <
        (listRegistrations st page limit status inquiryType).pagination.total +
          limit.getD 20) ∧
    (listRegistrations listStoreB (some 2) (some 1) none none).data = [regB2] ∧
    (listRegistrations listStoreB (some 2) (some 1) none none).pagination.pages =
      3 := by
  refine ⟨?_, by decide, by decide⟩
  intro st page limit status inquiryType hp hl
  refine ⟨rfl, rfl, rfl, rfl, ?_, ?_, ?_, ?_⟩
  · have hsort : List.Sorted createdDesc (List.insertionSort createdDesc st.regs) :=
      List.sorted_insertionSort createdDesc st.regs
    have hsub : (((filteredSorted st status inquiryType).drop
        ((page.getD 1 - 1) * limit.getD 20)).take (limit.getD 20)).Sublist
        (List.insertionSort createdDesc st.regs) :=
      (List.take_sublist _ _).trans
        ((List.drop_sublist _ _).trans (List.filter_sublist _))
    exact hsort.sublist hsub
  · exact (List.perm_insertionSort createdDesc st.regs).filter _
  · exact (ceilDiv_bounds (filteredSorted st status inquiryType).length
      (limit.getD 20) hl).1
  · exact (ceilDiv_bounds (filteredSorted st status inquiryType).length
      (limit.getD 20) hl).2

/-- C5 witness: the concrete page-2/size-1 listing against three records,
via the general part of the claim. -/
theorem list_pagination_spec_witness :
    (listRegistrations listStoreB (some 2) (some 1) none none).pagination.limit = 1 :=
  (list_pagination_spec.1 listStoreB (some 2) (some 1) none none
    (by decide) (by decide)).2.1

/-- C7: in every store reachable from the empty collection by register and
patch operations, every record's status is one of the four enum values:
submit only writes status `new` and the patch guard admits only enum
values. -/
theorem reachable_status_valid (ops : List Op) (r : Registration)
    (hr : r ∈ (runOps ops).regs) : r.status ∈ validStatuses :=
  foldl_preserves_statusOk ops emptyStore (by simp [emptyStore]) r hr

/-- C7 witness: the record created by registering `candA` at time 500 has
a valid status. -/
theorem reachable_status_valid_witness :
    regA.status ∈ validStatuses :=
  reachable_status_valid [Op.register 500 candA] regA (by decide)

end Meduhub
